import Mathlib

/-
Verification of the data-access layer implemented in dal/model.py.

The Python module is shallowly embedded as executable Lean definitions:
  * Python ints are modelled as ZZ, Python floats as QQ (exact arithmetic),
    Python byte strings as List Nat, Python str as String.
  * Python floor division (the // operator) on nonnegative divisors agrees
    with Lean division on Int, which is Euclidean division; the divisors in
    the source (10 ** 4 and 10 ** 2) are positive, so the embedding of
    date_to_dict uses Lean division directly.
  * The Python int(...) cast truncates toward zero; it is modelled by
    python_int below.
  * hashlib.pbkdf2_hmac with the fixed arguments ('sha256', ..., 100000) is
    an external deterministic primitive; it is abstracted as a function
    parameter pb : String -> List Nat -> List Nat (the UTF-8 encoding of the
    password is folded into it).  Both call sites in the source pass the
    identical primitive and iteration count, which is captured by using one
    and the same parameter at both call sites.
  * os.urandom(32) is an external entropy source; the draw is passed in
    explicitly (a List Nat argument, or a stream Nat -> List Nat indexed by
    the number of draws made so far).
-/

/-- The abstract field types of the Table model (keys of Table.sql_type and
Table.data_conversor in dal/model.py). -/
inductive DType
  | bit
  | int
  | real
  | text
  | date
  | money
  | pwd
deriving DecidableEq

/-- Application-level Python values that flow through the conversion
registry: bool, int, float, str, the (year, month, day) tuple used by date
fields, bytes, and the (salt, key) pair produced by the backward pwd
conversion. -/
inductive PyValue
  | vBool (b : Bool)
  | vInt (n : ℤ)
  | vFloat (q : ℚ)
  | vStr (s : String)
  | vDate (y m d : ℤ)
  | vBytes (bs : List ℕ)
  | vSaltKey (salt key : List ℕ)
deriving DecidableEq

/-- Storage-level SQLite values: integer, real, text, blob. -/
inductive SqlValue
  | sqlInt (n : ℤ)
  | sqlReal (q : ℚ)
  | sqlText (s : String)
  | sqlBlob (bs : List ℕ)
deriving DecidableEq

/-- The Python int(...) cast on a float: truncation toward zero. -/
def python_int (q : ℚ) : ℤ := q.num.tdiv q.den

/-- Python truthiness of an application value, as used by the bit forward
conversion (lambda x: 1 if x else 0). -/
def py_truthy : PyValue → Bool
  | PyValue.vBool b => b
  | PyValue.vInt n => decide (n ≠ 0)
  | PyValue.vFloat q => decide (q ≠ 0)
  | PyValue.vStr s => decide (s ≠ "")
  | PyValue.vDate _ _ _ => true
  | PyValue.vBytes bs => decide (bs ≠ [])
  | PyValue.vSaltKey _ _ => true

/-- Python truthiness of a stored value, as used by the bit backward
conversion (the bool cast). -/
def sql_truthy : SqlValue → Bool
  | SqlValue.sqlInt n => decide (n ≠ 0)
  | SqlValue.sqlReal q => decide (q ≠ 0)
  | SqlValue.sqlText s => decide (s ≠ "")
  | SqlValue.sqlBlob bs => decide (bs ≠ [])

/-- date_to_dict from dal/model.py (lines 7-12): convert the stored integer
back to a (year, month, day) tuple.  Python floor division on the positive
divisors 10 ** 4 and 10 ** 2 coincides with Lean Int division. -/
def date_to_dict (date : ℤ) : ℤ × ℤ × ℤ :=
  let year := date / 10 ^ 4
  let month := date / 10 ^ 2 - year * 10 ^ 2
  let day := date - (date / 10 ^ 2) * 10 ^ 2
  (year, month, day)

/-- date_to_sql from dal/model.py (lines 38-40): pack a (year, month, day)
tuple into one integer. -/
def date_to_sql (date : ℤ × ℤ × ℤ) : ℤ :=
  date.1 * 10 ^ 4 + date.2.1 * 10 ^ 2 + date.2.2

/-- store_password from dal/model.py (lines 15-21).  The os.urandom(32) draw
is passed in as the salt argument; pb abstracts
hashlib.pbkdf2_hmac('sha256', password.encode('utf-8'), salt, 100000).
The function returns salt + key concatenated. -/
def store_password (pb : String → List ℕ → List ℕ) (salt : List ℕ)
    (password : String) : List ℕ :=
  salt ++ pb password salt

/-- get_password from dal/model.py (lines 24-26): split the blob at the
fixed 32-byte boundary, (key[:32], key[32:]). -/
def get_password (key : List ℕ) : List ℕ × List ℕ :=
  (key.take 32, key.drop 32)

/-- match_password from dal/model.py (lines 29-35): re-derive the key from
the candidate password and the stored salt with the identical primitive and
iteration count (the same pb), and compare for exact equality. -/
def match_password (pb : String → List ℕ → List ℕ) (password : String)
    (key : List ℕ × List ℕ) : Bool :=
  pb password key.1 == key.2

/-- Table.sql_type from dal/model.py (lines 87-95). -/
def sql_type : DType → String
  | DType.bit => "integer"
  | DType.int => "integer"
  | DType.real => "real"
  | DType.text => "text"
  | DType.date => "integer"
  | DType.money => "integer"
  | DType.pwd => "blob"

/-- Forward half of Table.data_conversor (dal/model.py lines 97-105): the
application-to-storage conversion for each abstract type.  The salt
argument is the os.urandom(32) draw consumed by store_password; it is
ignored by every other type.  Inputs outside the intended application
domain of a type (for example int applied to a bytes value) raise or are
engine-adapted in Python; they are mapped to a fixed default here and are
not exercised by any claim. -/
def data_conversor_fwd (pb : String → List ℕ → List ℕ) (salt : List ℕ) :
    DType → PyValue → SqlValue
  | DType.bit, v => SqlValue.sqlInt (if py_truthy v then 1 else 0)
  | DType.int, PyValue.vBool b => SqlValue.sqlInt (if b then 1 else 0)
  | DType.int, PyValue.vInt n => SqlValue.sqlInt n
  | DType.int, PyValue.vFloat q => SqlValue.sqlInt (python_int q)
  | DType.int, _ => SqlValue.sqlInt 0
  | DType.real, PyValue.vBool b => SqlValue.sqlReal (if b then 1 else 0)
  | DType.real, PyValue.vInt n => SqlValue.sqlReal (n : ℚ)
  | DType.real, PyValue.vFloat q => SqlValue.sqlReal q
  | DType.real, _ => SqlValue.sqlReal 0
  | DType.text, PyValue.vInt n => SqlValue.sqlInt n
  | DType.text, PyValue.vFloat q => SqlValue.sqlReal q
  | DType.text, PyValue.vStr s => SqlValue.sqlText s
  | DType.text, PyValue.vBytes bs => SqlValue.sqlBlob bs
  | DType.text, _ => SqlValue.sqlInt 0
  | DType.date, PyValue.vDate y m d => SqlValue.sqlInt (date_to_sql (y, m, d))
  | DType.date, _ => SqlValue.sqlInt 0
  | DType.money, PyValue.vInt n => SqlValue.sqlInt (python_int ((n : ℚ) * 100))
  | DType.money, PyValue.vFloat q => SqlValue.sqlInt (python_int (q * 100))
  | DType.money, _ => SqlValue.sqlInt 0
  | DType.pwd, PyValue.vStr p => SqlValue.sqlBlob (store_password pb salt p)
  | DType.pwd, _ => SqlValue.sqlBlob []

/-- Backward half of Table.data_conversor (dal/model.py lines 97-105): the
storage-to-application conversion for each abstract type.  Stored values
outside a type's declared storage representation are mapped to a fixed
default (in Python they would raise or pass through untyped); no claim
exercises them. -/
def data_conversor_bwd : DType → SqlValue → PyValue
  | DType.bit, v => PyValue.vBool (sql_truthy v)
  | DType.int, SqlValue.sqlInt n => PyValue.vInt n
  | DType.int, SqlValue.sqlReal q => PyValue.vInt (python_int q)
  | DType.int, _ => PyValue.vInt 0
  | DType.real, SqlValue.sqlInt n => PyValue.vFloat (n : ℚ)
  | DType.real, SqlValue.sqlReal q => PyValue.vFloat q
  | DType.real, _ => PyValue.vFloat 0
  | DType.text, SqlValue.sqlInt n => PyValue.vInt n
  | DType.text, SqlValue.sqlReal q => PyValue.vFloat q
  | DType.text, SqlValue.sqlText s => PyValue.vStr s
  | DType.text, SqlValue.sqlBlob bs => PyValue.vBytes bs
  | DType.date, SqlValue.sqlInt n =>
      PyValue.vDate (date_to_dict n).1 (date_to_dict n).2.1 (date_to_dict n).2.2
  | DType.date, _ => PyValue.vInt 0
  | DType.money, SqlValue.sqlInt n => PyValue.vFloat ((n : ℚ) / 100)
  | DType.money, SqlValue.sqlReal q => PyValue.vFloat (q / 100)
  | DType.money, _ => PyValue.vInt 0
  | DType.pwd, SqlValue.sqlBlob bs =>
      PyValue.vSaltKey (get_password bs).1 (get_password bs).2
  | DType.pwd, _ => PyValue.vInt 0

/-- A fixed stand-in for the external pbkdf2 primitive, used to instantiate
witness statements. -/
def pb0 : String → List ℕ → List ℕ := fun _ _ => []

/-- A fixed 32-byte salt used to instantiate witness statements. -/
def salt0 : List ℕ := List.replicate 32 0

-- § Helper lemmas about python_int

/-- On nonnegative rationals the Python int cast is the floor. -/
theorem python_int_eq_floor (q : ℚ) (hq : 0 ≤ q) : python_int q = ⌊q⌋ := by
  unfold python_int
  rw [Rat.floor_def]
  exact Int.tdiv_eq_ediv (Rat.num_nonneg.mpr hq) (by positivity)

/-- The Python int cast is the identity on integers. -/
theorem python_int_intCast (k : ℤ) : python_int (k : ℚ) = k := by
  unfold python_int
  simp

/-- C1: For every abstract field type other than pwd (bit, int, real, text,
date, money) and every in-range application value v of that type, the
backward conversion applied to the forward conversion returns v; for date
this holds for every (year, month, day) with year in [0, 9999] and month,
day in [0, 99], and for money for every value representable in whole cents
(k / 100 with k an integer). -/
theorem data_conversor_roundtrip (pb : String → List ℕ → List ℕ)
    (salt : List ℕ) (b : Bool) (n : ℤ) (q : ℚ) (s : String) (y m d k : ℤ)
    (hy0 : 0 ≤ y) (hy : y ≤ 9999) (hm0 : 0 ≤ m) (hm : m ≤ 99)
    (hd0 : 0 ≤ d) (hd : d ≤ 99) :
    data_conversor_bwd DType.bit
      (data_conversor_fwd pb salt DType.bit (PyValue.vBool b)) = PyValue.vBool b ∧
    data_conversor_bwd DType.int
      (data_conversor_fwd pb salt DType.int (PyValue.vInt n)) = PyValue.vInt n ∧
    data_conversor_bwd DType.real
      (data_conversor_fwd pb salt DType.real (PyValue.vFloat q)) = PyValue.vFloat q ∧
    data_conversor_bwd DType.text
      (data_conversor_fwd pb salt DType.text (PyValue.vStr s)) = PyValue.vStr s ∧
    data_conversor_bwd DType.date
      (data_conversor_fwd pb salt DType.date (PyValue.vDate y m d)) = PyValue.vDate y m d ∧
    data_conversor_bwd DType.money
      (data_conversor_fwd pb salt DType.money (PyValue.vFloat ((k : ℚ) / 100))) =
      PyValue.vFloat ((k : ℚ) / 100) := by
  refine ⟨?_, rfl, rfl, rfl, ?_, ?_⟩
  · cases b <;> rfl
  · simp only [data_conversor_fwd, data_conversor_bwd, date_to_sql, date_to_dict,
      PyValue.vDate.injEq]
    norm_num
    omega
  · simp only [data_conversor_fwd, data_conversor_bwd, SqlValue.sqlInt.injEq,
      PyValue.vFloat.injEq]
    rw [show ((k : ℚ) / 100 * 100) = (k : ℚ) by field_simp, python_int_intCast]

/-- Witness for C1 at concrete inputs. -/
theorem data_conversor_roundtrip_witness :
    ((0 : ℤ) ≤ 2023 ∧ (2023 : ℤ) ≤ 9999 ∧ (0 : ℤ) ≤ 1 ∧ (1 : ℤ) ≤ 99 ∧
      (0 : ℤ) ≤ 5 ∧ (5 : ℤ) ≤ 99) ∧
    (data_conversor_bwd DType.bit
      (data_conversor_fwd pb0 salt0 DType.bit (PyValue.vBool true)) = PyValue.vBool true ∧
    data_conversor_bwd DType.int
      (data_conversor_fwd pb0 salt0 DType.int (PyValue.vInt 7)) = PyValue.vInt 7 ∧
    data_conversor_bwd DType.real
      (data_conversor_fwd pb0 salt0 DType.real (PyValue.vFloat (1 / 2))) =
      PyValue.vFloat (1 / 2) ∧
    data_conversor_bwd DType.text
      (data_conversor_fwd pb0 salt0 DType.text (PyValue.vStr "alice")) =
      PyValue.vStr "alice" ∧
    data_conversor_bwd DType.date
      (data_conversor_fwd pb0 salt0 DType.date (PyValue.vDate 2023 1 5)) =
      PyValue.vDate 2023 1 5 ∧
    data_conversor_bwd DType.money
      (data_conversor_fwd pb0 salt0 DType.money (PyValue.vFloat ((42 : ℚ) / 100))) =
      PyValue.vFloat ((42 : ℚ) / 100)) :=
  ⟨by norm_num,
    data_conversor_roundtrip pb0 salt0 true 7 (1 / 2) "alice" 2023 1 5 42
      (by norm_num) (by norm_num) (by norm_num) (by norm_num) (by norm_num)
      (by norm_num)⟩

/-- C2: verifying a password against the (salt, key) pair obtained by
splitting the blob produced by encoding it succeeds, whatever 32-byte salt
the encoder drew, because verification re-derives the key from the same
salt with the identical primitive and iteration count. -/
theorem match_password_roundtrip (pb : String → List ℕ → List ℕ)
    (p : String) (salt : List ℕ) (h : salt.length = 32) :
    match_password pb p (get_password (store_password pb salt p)) = true := by
  unfold match_password get_password store_password
  have ht : (salt ++ pb p salt).take 32 = salt := by
    rw [← h]
    exact List.take_left salt _
  have hd : (salt ++ pb p salt).drop 32 = pb p salt := by
    rw [← h]
    exact List.drop_left salt _
  simp [ht, hd]

/-- Witness for C2 at a concrete password and salt. -/
theorem match_password_roundtrip_witness :
    salt0.length = 32 ∧
    match_password pb0 "s3cret" (get_password (store_password pb0 salt0 "s3cret")) = true :=
  ⟨by decide, match_password_roundtrip pb0 "s3cret" salt0 (by decide)⟩

/-- C4: the forward money conversion multiplies by 100 and truncates, so
19.995 maps to 1999 (not the rounded 2000); the backward conversion divides
the stored integer by 100. -/
theorem money_truncation (pb : String → List ℕ → List ℕ) (salt : List ℕ) (n : ℤ) :
    data_conversor_fwd pb salt DType.money (PyValue.vFloat (19995 / 1000)) =
      SqlValue.sqlInt 1999 ∧
    data_conversor_fwd pb salt DType.money (PyValue.vFloat (19995 / 1000)) ≠
      SqlValue.sqlInt 2000 ∧
    data_conversor_bwd DType.money (SqlValue.sqlInt n) = PyValue.vFloat ((n : ℚ) / 100) := by
  have hk : data_conversor_fwd pb salt DType.money (PyValue.vFloat (19995 / 1000)) =
      SqlValue.sqlInt 1999 := by
    simp only [data_conversor_fwd, SqlValue.sqlInt.injEq]
    rw [python_int_eq_floor _ (by norm_num),
      show ((19995 : ℚ) / 1000 * 100) = 3999 / 2 by norm_num,
      Int.floor_eq_iff]
    norm_num
  exact ⟨hk, by rw [hk]; simp, rfl⟩

/-- C10: the credential decode function is total: it splits any byte blob
into its first 32 bytes and the remainder; on a blob shorter than 32 bytes
the salt component is the whole blob and the key component is empty, with
no length validation. -/
theorem get_password_split (b : List ℕ) :
    (get_password b).1 ++ (get_password b).2 = b ∧
    (get_password b).1.length = min 32 b.length ∧
    (b.length < 32 → get_password b = (b, [])) := by
  refine ⟨List.take_append_drop 32 b, by simp [get_password], ?_⟩
  intro h
  unfold get_password
  rw [List.take_of_length_le (le_of_lt h), List.drop_eq_nil_of_le (le_of_lt h)]

/-- Witness for C10 at a concrete 3-byte blob. -/
theorem get_password_split_witness :
    (get_password [1, 2, 3]).1 ++ (get_password [1, 2, 3]).2 = [1, 2, 3] ∧
    (get_password [1, 2, 3]).1.length = min 32 ([1, 2, 3] : List ℕ).length ∧
    (([1, 2, 3] : List ℕ).length < 32 → get_password [1, 2, 3] = ([1, 2, 3], [])) :=
  get_password_split [1, 2, 3]

-- § Table model and statement construction (dal/model.py lines 84-228)

/-- The Table class of dal/model.py (lines 107-111): a table name and the
ordered field descriptors (name, abstract type, modifier).  The back
reference to the manager is not part of the data model; the connection
state it carries is threaded explicitly through the execution model
below. -/
structure Table where
  table : String
  fields : List (String × DType × String)
deriving DecidableEq

/-- The values mapping passed to add/update/get: a Python dict from field
name to application value.  Membership (name in data) is isSome, and
data[name] is the carried value. -/
def DataMap : Type := String → Option PyValue

/-- The generator expression shared by add and update (dal/model.py lines
119-123 and 151-155): walk the declared fields in order, keep those whose
name is a key of the values mapping, and pair each kept name with the
forward-converted value.  The counter k indexes the os.urandom stream ent:
it advances exactly when a conversion draws entropy, that is on a present
pwd field. -/
def convert_fields (pb : String → List ℕ → List ℕ) (ent : ℕ → List ℕ)
    (data : DataMap) : List (String × DType × String) → ℕ → List (String × SqlValue)
  | [], _ => []
  | (name, d_type, _) :: rest, k =>
    match data name with
    | some v =>
        (name, data_conversor_fwd pb (ent k) d_type v) ::
          convert_fields pb ent data rest (if d_type = DType.pwd then k + 1 else k)
    | none => convert_fields pb ent data rest k

/-- Specification-side restatement of the conversion: the same walk over an
already-filtered field list (every field present in the mapping).  Used to
state C3 independently of the inline filtering done by convert_fields. -/
def convert_filtered (pb : String → List ℕ → List ℕ) (ent : ℕ → List ℕ)
    (data : DataMap) : List (String × DType × String) → ℕ → List (String × SqlValue)
  | [], _ => []
  | (name, d_type, _) :: rest, k =>
    (name, data_conversor_fwd pb (ent k) d_type ((data name).getD (PyValue.vInt 0))) ::
      convert_filtered pb ent data rest (if d_type = DType.pwd then k + 1 else k)

/-- The built form of one SQL statement: the field names appearing in it,
the command text, and the positional parameters bound to it, in order. -/
structure BuiltStmt where
  stmtFields : List String
  command : String
  params : List SqlValue
deriving DecidableEq

/-- The placeholder list of Table.add (dal/model.py line 128):
"? ," * (n - 1) + "?". -/
def placeholders (n : ℕ) : String :=
  String.join (List.replicate (n - 1) "? ,") ++ "?"

/-- Statement construction phase of Table.add (dal/model.py lines 119-129).
data_fields = tuple(zip(*generator)) transposes the (name, value) pairs;
on an empty pair list zip yields the empty tuple and the subsequent
data_fields[0] raises an uncaught IndexError, modelled as none. -/
def Table.add_stmt (pb : String → List ℕ → List ℕ) (ent : ℕ → List ℕ)
    (t : Table) (data : DataMap) : Option BuiltStmt :=
  let data_fields := convert_fields pb ent data t.fields 0
  if data_fields.isEmpty then
    none
  else
    some
      { stmtFields := data_fields.unzip.1
        command :=
          "INSERT into " ++ t.table ++ " (" ++
            String.intercalate ", " data_fields.unzip.1 ++ ") VALUES (" ++
            placeholders data_fields.unzip.1.length ++ ");"
        params := data_fields.unzip.2 }

/-- Statement construction phase of Table.update (dal/model.py lines
151-159 and 163).  The caller-supplied condition is a pair of a WHERE
fragment and its positional parameters; the complete parameter list is
list(data_fields[1]) + condition[1].  As in add, an empty filtered field
set raises IndexError at data_fields[0], modelled as none.  The source
concatenates the WHERE fragment without a separating space; the command
text reproduces that. -/
def Table.update_stmt (pb : String → List ℕ → List ℕ) (ent : ℕ → List ℕ)
    (t : Table) (data : DataMap) (condition : String × List SqlValue) :
    Option BuiltStmt :=
  let data_fields := convert_fields pb ent data t.fields 0
  if data_fields.isEmpty then
    none
  else
    some
      { stmtFields := data_fields.unzip.1
        command :=
          "UPDATE " ++ t.table ++ " SET " ++
            String.intercalate ", " (data_fields.unzip.1.map (fun n => n ++ " = ?")) ++
            "WHERE " ++ condition.1 ++ ";"
        params := data_fields.unzip.2 ++ condition.2 }

/-- The filtered (name, type) pairs of Table.get (dal/model.py lines
178-182): only the keys of the values mapping matter; each kept name is
paired with its backward conversion, represented by its abstract type. -/
def Table.get_fields (t : Table) (data : DataMap) : List (String × DType) :=
  t.fields.filterMap
    (fun f => if (data f.1).isSome then some (f.1, f.2.1) else none)

/-- Statement construction phase of Table.get (dal/model.py lines 178-188).
The bound parameters are exactly the condition parameters; an empty
filtered field set raises IndexError at data_fields[0], modelled as
none. -/
def Table.get_stmt (t : Table) (data : DataMap)
    (condition : String × List SqlValue) : Option BuiltStmt :=
  let data_fields := t.get_fields data
  if data_fields.isEmpty then
    none
  else
    some
      { stmtFields := data_fields.unzip.1
        command :=
          "SELECT " ++ String.intercalate ", " data_fields.unzip.1 ++
            " FROM " ++ t.table ++ " WHERE " ++ condition.1 ++ ";"
        params := condition.2 }

-- § Commutation of inline filtering with pre-filtering

/-- The inline filter-and-convert walk of add/update equals the conversion
of the pre-filtered field list, for every entropy counter. -/
theorem convert_fields_eq_filtered (pb : String → List ℕ → List ℕ)
    (ent : ℕ → List ℕ) (data : DataMap) :
    ∀ (fs : List (String × DType × String)) (k : ℕ),
      convert_fields pb ent data fs k =
        convert_filtered pb ent data (fs.filter (fun f => (data f.1).isSome)) k := by
  intro fs
  induction fs with
  | nil => intro k; rfl
  | cons f rest ih =>
    intro k
    obtain ⟨name, d_type, m⟩ := f
    by_cases h : (data name).isSome
    · obtain ⟨v, hv⟩ := Option.isSome_iff_exists.mp h
      rw [show ((name, d_type, m) :: rest).filter (fun f => (data f.1).isSome) =
          (name, d_type, m) :: rest.filter (fun f => (data f.1).isSome) by
        simp [List.filter_cons, h]]
      simp only [convert_fields, convert_filtered, hv, Option.getD_some]
      exact congrArg _ (ih _)
    · rw [show ((name, d_type, m) :: rest).filter (fun f => (data f.1).isSome) =
          rest.filter (fun f => (data f.1).isSome) by
        simp [List.filter_cons, h]]
      rw [show convert_fields pb ent data ((name, d_type, m) :: rest) k =
          convert_fields pb ent data rest k by
        simp only [convert_fields, Option.not_isSome_iff_eq_none.mp h]]
      exact ih k

/-- The names produced by convert_filtered are the names of its input. -/
theorem convert_filtered_names (pb : String → List ℕ → List ℕ)
    (ent : ℕ → List ℕ) (data : DataMap) :
    ∀ (fs : List (String × DType × String)) (k : ℕ),
      (convert_filtered pb ent data fs k).map Prod.fst = fs.map Prod.fst := by
  intro fs
  induction fs with
  | nil => intro k; rfl
  | cons f rest ih =>
    intro k
    obtain ⟨name, d_type, m⟩ := f
    simp only [convert_filtered, List.map_cons]
    exact congrArg _ (ih _)

/-- C3: for add and update with any values mapping and any predicate, the
fields appearing in the generated statement are exactly those both present
in the values mapping and declared in the schema, in the declaration
order; the bound parameters are the forward-converted values of those same
fields in that same order (each present pwd field consuming the next
entropy draw); and for update the predicate parameters are appended after
all field parameters, never interleaved. -/
theorem add_update_stmt_shape (pb : String → List ℕ → List ℕ)
    (ent : ℕ → List ℕ) (t : Table) (data : DataMap)
    (condition : String × List SqlValue)
    (h : t.fields.filter (fun f => (data f.1).isSome) ≠ []) :
    (t.add_stmt pb ent data).map BuiltStmt.stmtFields =
      some ((t.fields.filter (fun f => (data f.1).isSome)).map Prod.fst) ∧
    (t.add_stmt pb ent data).map BuiltStmt.params =
      some ((convert_filtered pb ent data
        (t.fields.filter (fun f => (data f.1).isSome)) 0).map Prod.snd) ∧
    (t.update_stmt pb ent data condition).map BuiltStmt.stmtFields =
      some ((t.fields.filter (fun f => (data f.1).isSome)).map Prod.fst) ∧
    (t.update_stmt pb ent data condition).map BuiltStmt.params =
      some ((convert_filtered pb ent data
        (t.fields.filter (fun f => (data f.1).isSome)) 0).map Prod.snd ++
        condition.2) := by
  have hconv := convert_fields_eq_filtered pb ent data t.fields 0
  have hne : ¬(convert_fields pb ent data t.fields 0).isEmpty := by
    rw [hconv]
    intro hempty
    rw [List.isEmpty_iff] at hempty
    rcases hcase : t.fields.filter (fun f => (data f.1).isSome) with _ | ⟨f, rest⟩
    · exact h hcase
    · rw [hcase] at hempty
      obtain ⟨name, d_type, m⟩ := f
      simp [convert_filtered] at hempty
  have hnames : (convert_fields pb ent data t.fields 0).unzip.1 =
      (t.fields.filter (fun f => (data f.1).isSome)).map Prod.fst := by
    rw [List.unzip_fst, hconv, convert_filtered_names]
  have hvals : (convert_fields pb ent data t.fields 0).unzip.2 =
      (convert_filtered pb ent data
        (t.fields.filter (fun f => (data f.1).isSome)) 0).map Prod.snd := by
    rw [List.unzip_snd, hconv]
  refine ⟨?_, ?_, ?_, ?_⟩ <;>
    · simp only [Table.add_stmt, Table.update_stmt, hne, if_false, Bool.false_eq_true,
        Option.map_some, hnames, hvals]
      rfl

/-- A fixed entropy stream for witness statements. -/
def ent0 : ℕ → List ℕ := fun _ => salt0

/-- A concrete two-field table for witness statements. -/
def t0 : Table :=
  { table := "users", fields := [("a", DType.int, ""), ("b", DType.text, "")] }

/-- A concrete values mapping containing only the key "a". -/
def data0 : DataMap := fun n => if n = "a" then some (PyValue.vInt 5) else none

/-- A concrete predicate for witness statements. -/
def cond0 : String × List SqlValue := ("id = ?", [SqlValue.sqlInt 1])

/-- Witness for C3 at a concrete table, mapping and predicate. -/
theorem add_update_stmt_shape_witness :
    t0.fields.filter (fun f => (data0 f.1).isSome) ≠ [] ∧
    ((t0.add_stmt pb0 ent0 data0).map BuiltStmt.stmtFields =
      some ((t0.fields.filter (fun f => (data0 f.1).isSome)).map Prod.fst) ∧
    (t0.add_stmt pb0 ent0 data0).map BuiltStmt.params =
      some ((convert_filtered pb0 ent0 data0
        (t0.fields.filter (fun f => (data0 f.1).isSome)) 0).map Prod.snd) ∧
    (t0.update_stmt pb0 ent0 data0 cond0).map BuiltStmt.stmtFields =
      some ((t0.fields.filter (fun f => (data0 f.1).isSome)).map Prod.fst) ∧
    (t0.update_stmt pb0 ent0 data0 cond0).map BuiltStmt.params =
      some ((convert_filtered pb0 ent0 data0
        (t0.fields.filter (fun f => (data0 f.1).isSome)) 0).map Prod.snd ++
        cond0.2)) :=
  ⟨by decide, add_update_stmt_shape pb0 ent0 t0 data0 cond0 (by decide)⟩

-- § Execution model: connection lifecycle and the external engine

/-- The state of the connection and cursor attributes of SQLiteManager:
noConn models the initial None set in __init__ (line 62-63), closedConn a
connection object whose close() has run, openConn a live connection. -/
inductive ConnSt
  | noConn
  | closedConn
  | openConn
deriving DecidableEq

/-- One operation's interaction with the external engine: whether
db_api.connect succeeds, whether cursor.execute succeeds (on a live
cursor), whether connection.commit succeeds, the rows fetchall returns and
the lastrowid the engine assigns. -/
structure Oracle where
  connectOk : Bool
  execOk : Bool
  commitOk : Bool
  rows : List (List SqlValue)
  lastrowid : ℤ
deriving DecidableEq

/-- The visible outcome of a Python call: a returned value or an uncaught
exception propagating to the caller. -/
inductive PyResult (α : Type)
  | ok (a : α)
  | raised
deriving DecidableEq

/-- Outcome of one CRUD operation: its result, the connection state it
leaves behind, and whether the except-block logging ran. -/
structure OpOutcome (α : Type) where
  result : PyResult α
  conn : ConnSt
  logged : Bool
deriving DecidableEq

/-- SQLiteManager.connect (dal/model.py lines 69-75): on success the
connection and cursor attributes are replaced by live ones; on failure the
exception is caught and printed and the attributes keep their previous
values. -/
def connect_step (o : Oracle) (s : ConnSt) : ConnSt :=
  if o.connectOk then ConnSt.openConn else s

/-- Execution phase of Table.add (dal/model.py lines 131-143), after the
statement has been built.  try: connect, execute, read lastrowid, commit;
except: log; finally: close.  With no usable cursor (connect failed on a
noConn or closedConn manager) or a failing execute, the exception is
caught and output stays None.  In the finally block, close() on a None
connection (noConn after a failed connect) raises an uncaught
AttributeError; close() on a closed connection is a no-op.  A commit
failure is caught after output was already assigned, so the lastrowid is
still returned. -/
def exec_phase_add (o : Oracle) (s : ConnSt) : OpOutcome (Option ℤ) :=
  let s1 := connect_step o s
  if s1 = ConnSt.openConn ∧ o.execOk = true then
    { result := PyResult.ok (some o.lastrowid)
      conn := ConnSt.closedConn
      logged := !o.commitOk }
  else
    match s1 with
    | ConnSt.noConn => { result := PyResult.raised, conn := ConnSt.noConn, logged := true }
    | _ => { result := PyResult.ok none, conn := ConnSt.closedConn, logged := true }

/-- Execution phase of Table.update (dal/model.py lines 161-170): same
shape as add but with no return value. -/
def exec_phase_update (o : Oracle) (s : ConnSt) : OpOutcome Unit :=
  let s1 := connect_step o s
  if s1 = ConnSt.openConn ∧ o.execOk = true then
    { result := PyResult.ok (), conn := ConnSt.closedConn, logged := !o.commitOk }
  else
    match s1 with
    | ConnSt.noConn => { result := PyResult.raised, conn := ConnSt.noConn, logged := true }
    | _ => { result := PyResult.ok (), conn := ConnSt.closedConn, logged := true }

/-- Execution phase of Table.get (dal/model.py lines 188-199): output
starts as None, is assigned the fetchall rows after a successful execute,
and survives a later commit failure. -/
def exec_phase_get (o : Oracle) (s : ConnSt) :
    OpOutcome (Option (List (List SqlValue))) :=
  let s1 := connect_step o s
  if s1 = ConnSt.openConn ∧ o.execOk = true then
    { result := PyResult.ok (some o.rows), conn := ConnSt.closedConn, logged := !o.commitOk }
  else
    match s1 with
    | ConnSt.noConn => { result := PyResult.raised, conn := ConnSt.noConn, logged := true }
    | _ => { result := PyResult.ok none, conn := ConnSt.closedConn, logged := true }

/-- Execution phase of Table.create (dal/model.py lines 214-228): same
shape as update; the command construction inside the try block is total. -/
def exec_phase_create (o : Oracle) (s : ConnSt) : OpOutcome Unit :=
  let s1 := connect_step o s
  if s1 = ConnSt.openConn ∧ o.execOk = true then
    { result := PyResult.ok (), conn := ConnSt.closedConn, logged := !o.commitOk }
  else
    match s1 with
    | ConnSt.noConn => { result := PyResult.raised, conn := ConnSt.noConn, logged := true }
    | _ => { result := PyResult.ok (), conn := ConnSt.closedConn, logged := true }

/-- Table.add in full (dal/model.py lines 116-143): statement construction
happens before the try block; the IndexError of the empty field set
propagates uncaught before any connection is opened, leaving the
connection state untouched and skipping the except-block logging. -/
def Table.add (pb : String → List ℕ → List ℕ) (ent : ℕ → List ℕ) (t : Table)
    (data : DataMap) (o : Oracle) (s : ConnSt) : OpOutcome (Option ℤ) :=
  match t.add_stmt pb ent data with
  | none => { result := PyResult.raised, conn := s, logged := false }
  | some _ => exec_phase_add o s

/-- Table.update in full (dal/model.py lines 145-170). -/
def Table.update (pb : String → List ℕ → List ℕ) (ent : ℕ → List ℕ)
    (t : Table) (data : DataMap) (condition : String × List SqlValue)
    (o : Oracle) (s : ConnSt) : OpOutcome Unit :=
  match t.update_stmt pb ent data condition with
  | none => { result := PyResult.raised, conn := s, logged := false }
  | some _ => exec_phase_update o s

/-- Row conversion of Table.get (dal/model.py lines 203-209): one mapping
per row, each column backward-converted and keyed by its field name;
Python zip truncates at the shortest sequence, as List.zip does. -/
def get_row_convert (flds : List (String × DType)) (item : List SqlValue) :
    List (String × PyValue) :=
  (item.zip flds).map (fun p => (p.2.1, data_conversor_bwd p.2.2 p.1))

/-- Table.get in full (dal/model.py lines 172-210): build the statement
(raising on an empty field set), run it, and if execution left an output
convert every row back to application values. -/
def Table.get (t : Table) (data : DataMap) (condition : String × List SqlValue)
    (o : Oracle) (s : ConnSt) :
    OpOutcome (Option (List (List (String × PyValue)))) :=
  match t.get_stmt data condition with
  | none => { result := PyResult.raised, conn := s, logged := false }
  | some _ =>
    let r := exec_phase_get o s
    { result :=
        match r.result with
        | PyResult.raised => PyResult.raised
        | PyResult.ok none => PyResult.ok none
        | PyResult.ok (some rows) =>
            PyResult.ok (some (rows.map (get_row_convert (t.get_fields data))))
      conn := r.conn
      logged := r.logged }

/-- Table.create in full (dal/model.py lines 212-228). -/
def Table.create (t : Table) (o : Oracle) (s : ConnSt) : OpOutcome Unit :=
  exec_phase_create o s

/-- The CREATE command text built by Table.create (dal/model.py lines
216-221). -/
def Table.create_command (t : Table) : String :=
  "CREATE TABLE " ++ t.table ++ " (" ++
    String.intercalate ", "
      (t.fields.map (fun f => f.1 ++ " " ++ sql_type f.2.1 ++ " " ++ f.2.2)) ++
    ");"

-- § Helper lemmas on statement construction

/-- convert_filtered returns the empty list exactly on the empty field
list. -/
theorem convert_filtered_eq_nil_iff (pb : String → List ℕ → List ℕ)
    (ent : ℕ → List ℕ) (data : DataMap) (fs : List (String × DType × String))
    (k : ℕ) :
    convert_filtered pb ent data fs k = [] ↔ fs = [] := by
  cases fs with
  | nil => simp [convert_filtered]
  | cons f rest =>
    obtain ⟨n, d, m⟩ := f
    simp [convert_filtered]

/-- convert_fields returns the empty list exactly when no declared field
name is a key of the values mapping. -/
theorem convert_fields_eq_nil_iff (pb : String → List ℕ → List ℕ)
    (ent : ℕ → List ℕ) (data : DataMap) (fs : List (String × DType × String))
    (k : ℕ) :
    convert_fields pb ent data fs k = [] ↔
      fs.filter (fun f => (data f.1).isSome) = [] := by
  rw [convert_fields_eq_filtered, convert_filtered_eq_nil_iff]

/-- The filtered field list of get is the map of the shared filter. -/
theorem get_fields_eq (t : Table) (data : DataMap) :
    t.get_fields data =
      (t.fields.filter (fun f => (data f.1).isSome)).map (fun f => (f.1, f.2.1)) := by
  unfold Table.get_fields
  induction t.fields with
  | nil => rfl
  | cons f rest ih =>
    obtain ⟨n, d, m⟩ := f
    by_cases h : (data n).isSome
    · simp [List.filterMap_cons, List.filter_cons, h, ih]
    · simp [List.filterMap_cons, List.filter_cons, h, ih]

/-- When at least one declared field is present in the mapping, add builds
a statement. -/
theorem add_stmt_ne_none (pb : String → List ℕ → List ℕ) (ent : ℕ → List ℕ)
    (t : Table) (data : DataMap)
    (h : t.fields.filter (fun f => (data f.1).isSome) ≠ []) :
    t.add_stmt pb ent data ≠ none := by
  have hne : (convert_fields pb ent data t.fields 0).isEmpty = false := by
    cases hcase : (convert_fields pb ent data t.fields 0).isEmpty
    · rfl
    · exact absurd ((convert_fields_eq_nil_iff pb ent data t.fields 0).mp
        (List.isEmpty_iff.mp hcase)) h
  simp only [Table.add_stmt, hne, Bool.false_eq_true, if_false]
  exact fun hx => Option.noConfusion hx

/-- When at least one declared field is present in the mapping, update
builds a statement. -/
theorem update_stmt_ne_none (pb : String → List ℕ → List ℕ) (ent : ℕ → List ℕ)
    (t : Table) (data : DataMap) (condition : String × List SqlValue)
    (h : t.fields.filter (fun f => (data f.1).isSome) ≠ []) :
    t.update_stmt pb ent data condition ≠ none := by
  have hne : (convert_fields pb ent data t.fields 0).isEmpty = false := by
    cases hcase : (convert_fields pb ent data t.fields 0).isEmpty
    · rfl
    · exact absurd ((convert_fields_eq_nil_iff pb ent data t.fields 0).mp
        (List.isEmpty_iff.mp hcase)) h
  simp only [Table.update_stmt, hne, Bool.false_eq_true, if_false]
  exact fun hx => Option.noConfusion hx

/-- When at least one declared field is present in the mapping, get builds
a statement. -/
theorem get_stmt_ne_none (t : Table) (data : DataMap)
    (condition : String × List SqlValue)
    (h : t.fields.filter (fun f => (data f.1).isSome) ≠ []) :
    t.get_stmt data condition ≠ none := by
  have hne : (t.get_fields data).isEmpty = false := by
    cases hcase : (t.get_fields data).isEmpty
    · rfl
    · refine absurd ?_ h
      have := List.isEmpty_iff.mp hcase
      rw [get_fields_eq] at this
      exact List.map_eq_nil_iff.mp this
  simp only [Table.get_stmt, hne, Bool.false_eq_true, if_false]
  exact fun hx => Option.noConfusion hx

-- § Connection-release lemmas for the execution phases

/-- The execution phase of add never leaves an open connection. -/
theorem exec_phase_add_conn (o : Oracle) (s : ConnSt) :
    (exec_phase_add o s).conn ≠ ConnSt.openConn := by
  rcases o with ⟨co, eo, cm, r, l⟩
  cases co <;> cases eo <;> cases s <;> simp [exec_phase_add, connect_step]

/-- The execution phase of update never leaves an open connection. -/
theorem exec_phase_update_conn (o : Oracle) (s : ConnSt) :
    (exec_phase_update o s).conn ≠ ConnSt.openConn := by
  rcases o with ⟨co, eo, cm, r, l⟩
  cases co <;> cases eo <;> cases s <;> simp [exec_phase_update, connect_step]

/-- The execution phase of get never leaves an open connection. -/
theorem exec_phase_get_conn (o : Oracle) (s : ConnSt) :
    (exec_phase_get o s).conn ≠ ConnSt.openConn := by
  rcases o with ⟨co, eo, cm, r, l⟩
  cases co <;> cases eo <;> cases s <;> simp [exec_phase_get, connect_step]

/-- The execution phase of create never leaves an open connection. -/
theorem exec_phase_create_conn (o : Oracle) (s : ConnSt) :
    (exec_phase_create o s).conn ≠ ConnSt.openConn := by
  rcases o with ⟨co, eo, cm, r, l⟩
  cases co <;> cases eo <;> cases s <;> simp [exec_phase_create, connect_step]

/-- C5: on every exit path of add, update, get and create — including the
paths where connect fails or execute fails — the operation ends with no
open connection: the finally block closes a live connection, and a path
that never obtained one has nothing open.  The entry state is any state an
operation can actually start from (the initial None or a closed
connection). -/
theorem crud_releases_connection (pb : String → List ℕ → List ℕ)
    (ent : ℕ → List ℕ) (t : Table) (data : DataMap)
    (condition : String × List SqlValue) (o : Oracle) (s : ConnSt)
    (hs : s ≠ ConnSt.openConn) :
    (Table.add pb ent t data o s).conn ≠ ConnSt.openConn ∧
    (Table.update pb ent t data condition o s).conn ≠ ConnSt.openConn ∧
    (Table.get t data condition o s).conn ≠ ConnSt.openConn ∧
    (Table.create t o s).conn ≠ ConnSt.openConn := by
  refine ⟨?_, ?_, ?_, exec_phase_create_conn o s⟩
  · cases hst : t.add_stmt pb ent data with
    | none => simpa [Table.add, hst] using hs
    | some st => simpa [Table.add, hst] using exec_phase_add_conn o s
  · cases hst : t.update_stmt pb ent data condition with
    | none => simpa [Table.update, hst] using hs
    | some st => simpa [Table.update, hst] using exec_phase_update_conn o s
  · cases hst : t.get_stmt data condition with
    | none => simpa [Table.get, hst] using hs
    | some st => simpa [Table.get, hst] using exec_phase_get_conn o s

/-- A happy-path oracle for witness statements. -/
def o_ok : Oracle :=
  { connectOk := true, execOk := true, commitOk := true, rows := [], lastrowid := 1 }

/-- Witness for C5 at concrete inputs. -/
theorem crud_releases_connection_witness :
    ConnSt.noConn ≠ ConnSt.openConn ∧
    ((Table.add pb0 ent0 t0 data0 o_ok ConnSt.noConn).conn ≠ ConnSt.openConn ∧
    (Table.update pb0 ent0 t0 data0 cond0 o_ok ConnSt.noConn).conn ≠ ConnSt.openConn ∧
    (Table.get t0 data0 cond0 o_ok ConnSt.noConn).conn ≠ ConnSt.openConn ∧
    (Table.create t0 o_ok ConnSt.noConn).conn ≠ ConnSt.openConn) :=
  ⟨by decide,
    crud_releases_connection pb0 ent0 t0 data0 cond0 o_ok ConnSt.noConn (by decide)⟩

/-- C9: when the values mapping shares no key with the declared field
names (the empty mapping included), add, update and get raise an uncaught
IndexError while building the statement, before any connection is opened
or statement executed: the result is an uncaught exception (not the
logged-and-None policy of the except block, so logged stays false) and the
connection state is untouched. -/
theorem disjoint_data_raises (pb : String → List ℕ → List ℕ)
    (ent : ℕ → List ℕ) (t : Table) (data : DataMap)
    (condition : String × List SqlValue) (o : Oracle) (s : ConnSt)
    (h : ∀ f ∈ t.fields, data f.1 = none) :
    t.add_stmt pb ent data = none ∧
    t.update_stmt pb ent data condition = none ∧
    t.get_stmt data condition = none ∧
    Table.add pb ent t data o s =
      { result := PyResult.raised, conn := s, logged := false } ∧
    Table.update pb ent t data condition o s =
      { result := PyResult.raised, conn := s, logged := false } ∧
    Table.get t data condition o s =
      { result := PyResult.raised, conn := s, logged := false } := by
  have hfil : t.fields.filter (fun f => (data f.1).isSome) = [] := by
    rw [List.filter_eq_nil_iff]
    intro f hf
    simp [h f hf]
  have hconv : convert_fields pb ent data t.fields 0 = [] :=
    (convert_fields_eq_nil_iff pb ent data t.fields 0).mpr hfil
  have hgf : t.get_fields data = [] := by
    rw [get_fields_eq, hfil]
    rfl
  have ha : t.add_stmt pb ent data = none := by
    simp [Table.add_stmt, hconv]
  have hu : t.update_stmt pb ent data condition = none := by
    simp [Table.update_stmt, hconv]
  have hg : t.get_stmt data condition = none := by
    simp [Table.get_stmt, hgf]
  exact ⟨ha, hu, hg, by simp [Table.add, ha], by simp [Table.update, hu],
    by simp [Table.get, hg]⟩

/-- The everywhere-empty values mapping. -/
def dataEmpty : DataMap := fun _ => none

/-- Witness for C9 at a concrete table and the empty mapping. -/
theorem disjoint_data_raises_witness :
    (∀ f ∈ t0.fields, dataEmpty f.1 = none) ∧
    (t0.add_stmt pb0 ent0 dataEmpty = none ∧
    t0.update_stmt pb0 ent0 dataEmpty cond0 = none ∧
    t0.get_stmt dataEmpty cond0 = none ∧
    Table.add pb0 ent0 t0 dataEmpty o_ok ConnSt.closedConn =
      { result := PyResult.raised, conn := ConnSt.closedConn, logged := false } ∧
    Table.update pb0 ent0 t0 dataEmpty cond0 o_ok ConnSt.closedConn =
      { result := PyResult.raised, conn := ConnSt.closedConn, logged := false } ∧
    Table.get t0 dataEmpty cond0 o_ok ConnSt.closedConn =
      { result := PyResult.raised, conn := ConnSt.closedConn, logged := false }) :=
  ⟨by decide,
    disjoint_data_raises pb0 ent0 t0 dataEmpty cond0 o_ok ConnSt.closedConn (by decide)⟩

-- § Error policy of add and get (C7, C6)

/-- The oracle of a failed db_api.connect call with an otherwise healthy
engine. -/
def o_connfail : Oracle :=
  { connectOk := false, execOk := true, commitOk := true, rows := [], lastrowid := 1 }

/-- C7 counterexample: on a manager that has never connected (connection
attribute None) whose connect call fails, statement execution fails inside
add, yet add does not return None: the finally block calls close() on
None and the resulting AttributeError propagates to the caller. -/
theorem add_error_policy_counterexample :
    (Table.add pb0 ent0 t0 data0 o_connfail ConnSt.noConn).result = PyResult.raised ∧
    (PyResult.raised : PyResult (Option ℤ)) ≠ PyResult.ok none ∧
    ¬(connect_step o_connfail ConnSt.noConn = ConnSt.openConn ∧
      o_connfail.execOk = true) := by
  decide

/-- C7 as amended: provided the manager holds a connection object (the
entry state is not None, or connect succeeds), a failed statement
execution inside add is logged and not raised and add returns None, and a
successful execution returns the engine-assigned lastrowid. -/
theorem add_error_policy (pb : String → List ℕ → List ℕ) (ent : ℕ → List ℕ)
    (t : Table) (data : DataMap) (o : Oracle) (s : ConnSt)
    (hstmt : t.fields.filter (fun f => (data f.1).isSome) ≠ [])
    (hconn : s ≠ ConnSt.noConn ∨ o.connectOk = true) :
    (¬(connect_step o s = ConnSt.openConn ∧ o.execOk = true) →
      (Table.add pb ent t data o s).result = PyResult.ok none ∧
      (Table.add pb ent t data o s).logged = true) ∧
    ((connect_step o s = ConnSt.openConn ∧ o.execOk = true) →
      (Table.add pb ent t data o s).result = PyResult.ok (some o.lastrowid)) := by
  cases hst : t.add_stmt pb ent data with
  | none => exact absurd hst (add_stmt_ne_none pb ent t data hstmt)
  | some st =>
    have hrun : Table.add pb ent t data o s = exec_phase_add o s := by
      simp [Table.add, hst]
    rw [hrun]
    rcases o with ⟨co, eo, cm, r, l⟩
    cases co <;> cases eo <;> cases s <;>
      simp_all [exec_phase_add, connect_step]

/-- Witness for the amended C7 at concrete inputs. -/
theorem add_error_policy_witness :
    (t0.fields.filter (fun f => (data0 f.1).isSome) ≠ [] ∧
      (ConnSt.noConn ≠ ConnSt.noConn ∨ o_ok.connectOk = true)) ∧
    ((¬(connect_step o_ok ConnSt.noConn = ConnSt.openConn ∧ o_ok.execOk = true) →
      (Table.add pb0 ent0 t0 data0 o_ok ConnSt.noConn).result = PyResult.ok none ∧
      (Table.add pb0 ent0 t0 data0 o_ok ConnSt.noConn).logged = true) ∧
    ((connect_step o_ok ConnSt.noConn = ConnSt.openConn ∧ o_ok.execOk = true) →
      (Table.add pb0 ent0 t0 data0 o_ok ConnSt.noConn).result =
        PyResult.ok (some o_ok.lastrowid))) :=
  ⟨⟨by decide, by decide⟩,
    add_error_policy pb0 ent0 t0 data0 o_ok ConnSt.noConn (by decide) (by decide)⟩

/-- C6 counterexample: on a manager that has never connected whose connect
call fails, statement execution fails, yet get does not return None — the
close() on a None connection in the finally block raises an uncaught
AttributeError — so the claimed equivalence between a None return and
execution failure does not hold there. -/
theorem get_null_iff_exec_failure_counterexample :
    (Table.get t0 data0 cond0 o_connfail ConnSt.noConn).result = PyResult.raised ∧
    ¬(((Table.get t0 data0 cond0 o_connfail ConnSt.noConn).result =
        PyResult.ok none) ↔
      ¬(connect_step o_connfail ConnSt.noConn = ConnSt.openConn ∧
        o_connfail.execOk = true)) := by
  decide

/-- C6 as amended: provided the manager holds a connection object (the
entry state is not None, or connect succeeds), get returns None exactly
when statement execution failed; when execution succeeds it returns the
backward-converted rows in order, and in particular an empty fetchall
yields the empty sequence, not None. -/
theorem get_null_iff_exec_failure (t : Table) (data : DataMap)
    (condition : String × List SqlValue) (o : Oracle) (s : ConnSt)
    (hstmt : t.fields.filter (fun f => (data f.1).isSome) ≠ [])
    (hconn : s ≠ ConnSt.noConn ∨ o.connectOk = true) :
    ((Table.get t data condition o s).result = PyResult.ok none ↔
      ¬(connect_step o s = ConnSt.openConn ∧ o.execOk = true)) ∧
    ((connect_step o s = ConnSt.openConn ∧ o.execOk = true) →
      (Table.get t data condition o s).result =
        PyResult.ok (some (o.rows.map (get_row_convert (t.get_fields data))))) ∧
    ((connect_step o s = ConnSt.openConn ∧ o.execOk = true) → o.rows = [] →
      (Table.get t data condition o s).result = PyResult.ok (some [])) := by
  cases hst : t.get_stmt data condition with
  | none => exact absurd hst (get_stmt_ne_none t data condition hstmt)
  | some st =>
    rcases o with ⟨co, eo, cm, r, l⟩
    cases co <;> cases eo <;> cases s <;>
      simp_all [Table.get, exec_phase_get, connect_step, hst]

/-- Witness for the amended C6 at concrete inputs. -/
theorem get_null_iff_exec_failure_witness :
    (t0.fields.filter (fun f => (data0 f.1).isSome) ≠ [] ∧
      (ConnSt.noConn ≠ ConnSt.noConn ∨ o_ok.connectOk = true)) ∧
    (((Table.get t0 data0 cond0 o_ok ConnSt.noConn).result = PyResult.ok none ↔
      ¬(connect_step o_ok ConnSt.noConn = ConnSt.openConn ∧ o_ok.execOk = true)) ∧
    ((connect_step o_ok ConnSt.noConn = ConnSt.openConn ∧ o_ok.execOk = true) →
      (Table.get t0 data0 cond0 o_ok ConnSt.noConn).result =
        PyResult.ok (some (o_ok.rows.map (get_row_convert (t0.get_fields data0))))) ∧
    ((connect_step o_ok ConnSt.noConn = ConnSt.openConn ∧ o_ok.execOk = true) →
      o_ok.rows = [] →
      (Table.get t0 data0 cond0 o_ok ConnSt.noConn).result =
        PyResult.ok (some []))) :=
  ⟨⟨by decide, by decide⟩,
    get_null_iff_exec_failure t0 data0 cond0 o_ok ConnSt.noConn (by decide) (by decide)⟩

-- § SQLiteManager construction (dal/model.py lines 57-81) for C8

/-- A value stored in the __dict__ of SQLiteManager: the db_file string,
a Table model, the initial None of the connection and cursor attributes,
or a live connection or cursor object after connect ran. -/
inductive Attr
  | aStr (s : String)
  | aTable (t : Table)
  | aNone
  | aConn
deriving DecidableEq

/-- Python dict assignment d[k] = v on an insertion-ordered dict: an
existing key keeps its position and gets the new value, a new key is
appended at the end. -/
def dict_set : List (String × Attr) → String → Attr → List (String × Attr)
  | [], k, v => [(k, v)]
  | (k1, v1) :: rest, k, v =>
    if k1 = k then (k, v) :: rest else (k1, v1) :: dict_set rest k v

/-- The __dict__ of a SQLiteManager right before the os.path.isfile test
(dal/model.py lines 59-63): db_file is assigned first, then one Table per
schema entry in schema order (overwriting any same-named earlier
attribute), then connection = None and cursor = None. -/
def manager_dict (file : String)
    (model : List (String × List (String × DType × String))) :
    List (String × Attr) :=
  dict_set
    (dict_set
      (model.foldl
        (fun d nf => dict_set d nf.1 (Attr.aTable { table := nf.1, fields := nf.2 }))
        [("db_file", Attr.aStr file)])
      "connection" Attr.aNone)
    "cursor" Attr.aNone

/-- The extraction create_database performs (dal/model.py lines 77-81):
keep exactly the __dict__ entries that are Table instances and take the
CREATE command each one issues. -/
def attr_create (kv : String × Attr) : Option String :=
  match kv.2 with
  | Attr.aTable t => some t.create_command
  | _ => none

/-- Outcome of SQLiteManager.__init__: the CREATE commands that reach the
engine, whether a connection was opened, and whether the constructor
raised an uncaught exception. -/
structure InitOutcome where
  creates : List String
  connected : Bool
  raised : Bool
deriving DecidableEq

/-- SQLiteManager.__init__ (dal/model.py lines 57-67) together with
create_database (lines 77-81).  Python resolves self.connect and
self.create_database through the instance __dict__ before the class, and
plain functions on the class are non-data descriptors, so a Table entry
stored under one of those names shadows the method.  Branches, in
execution order:
  * the store exists (line 65): nothing runs, no CREATE is issued;
  * a table is named connect: self.connect() at line 66 calls the Table
    object and raises an uncaught TypeError; nothing was connected and no
    CREATE is issued;
  * a table is named db_file: the table loop overwrote self.db_file, so
    inside connect() the call db_api.connect(Table) raises a TypeError
    that connect swallows, leaving connection and cursor None; then either
    create_database is itself shadowed (TypeError at line 67) or the first
    Table.create() call finds a None cursor, its execute fails, and the
    finally-block close() on None raises an uncaught AttributeError —
    either way the constructor raises and no CREATE reaches the engine;
  * a table is named create_database: connect() succeeded, but
    self.create_database() at line 67 calls the Table object and raises an
    uncaught TypeError with no CREATE issued;
  * otherwise connect opens the store and create_database issues one
    CREATE per Table entry of __dict__, in insertion order (tables named
    connection or cursor were overwritten by None at lines 62-63 and are
    no longer Table entries). -/
def manager_init (file : String) (fileExists : Bool)
    (model : List (String × List (String × DType × String))) : InitOutcome :=
  if fileExists then
    { creates := [], connected := false, raised := false }
  else if "connect" ∈ model.map Prod.fst then
    { creates := [], connected := false, raised := true }
  else if "db_file" ∈ model.map Prod.fst then
    { creates := [], connected := false, raised := true }
  else if "create_database" ∈ model.map Prod.fst then
    { creates := [], connected := true, raised := true }
  else
    { creates :=
        (dict_set (dict_set (manager_dict file model) "connection" Attr.aConn)
          "cursor" Attr.aConn).filterMap attr_create
      connected := true
      raised := false }

/-- Assigning a fresh key appends at the end. -/
theorem dict_set_fresh (k : String) (v : Attr) :
    ∀ d : List (String × Attr), k ∉ d.map Prod.fst → dict_set d k v = d ++ [(k, v)] := by
  intro d
  induction d with
  | nil => intro _; rfl
  | cons kv rest ih =>
    intro h
    obtain ⟨k1, v1⟩ := kv
    simp only [List.map_cons, List.mem_cons] at h
    push_neg at h
    simp only [dict_set, if_neg (Ne.symm h.1)]
    rw [ih h.2]
    rfl

/-- Assigning a key present exactly once, behind fresh keys, replaces it
in place. -/
theorem dict_set_mid (k : String) (v w : Attr) (Y : List (String × Attr)) :
    ∀ X : List (String × Attr), k ∉ X.map Prod.fst →
      dict_set (X ++ (k, w) :: Y) k v = X ++ (k, v) :: Y := by
  intro X
  induction X with
  | nil => intro _; simp [dict_set]
  | cons kv rest ih =>
    intro h
    obtain ⟨k1, v1⟩ := kv
    simp only [List.map_cons, List.mem_cons] at h
    push_neg at h
    simp only [List.cons_append, dict_set, if_neg (Ne.symm h.1), List.append_eq]
    rw [ih h.2]

/-- Folding the table assignments of __init__ over fresh, pairwise
distinct names appends one Table entry per schema entry, in schema
order. -/
theorem fold_tables (model : List (String × List (String × DType × String))) :
    ∀ d : List (String × Attr), (model.map Prod.fst).Nodup →
      (∀ nm ∈ model.map Prod.fst, nm ∉ d.map Prod.fst) →
      model.foldl
        (fun d nf => dict_set d nf.1 (Attr.aTable { table := nf.1, fields := nf.2 }))
        d =
      d ++ model.map (fun nf => (nf.1, Attr.aTable { table := nf.1, fields := nf.2 })) := by
  induction model with
  | nil => intro d _ _; simp
  | cons nf rest ih =>
    intro d hnodup hfresh
    rw [List.map_cons] at hnodup
    obtain ⟨hhead, htail⟩ := List.nodup_cons.mp hnodup
    rw [List.foldl_cons,
      dict_set_fresh nf.1 _ d (hfresh nf.1 (by simp)),
      ih (d ++ [(nf.1, Attr.aTable { table := nf.1, fields := nf.2 })]) htail ?_]
    · simp
    · intro nm hnm
      simp only [List.map_append, List.mem_append, List.map_cons, List.map_nil,
        List.mem_singleton]
      push_neg
      refine ⟨hfresh nm (by simp [hnm]), ?_⟩
      intro he
      exact hhead (he ▸ hnm)

/-- Extracting the CREATE commands from the Table entries alone gives one
command per schema entry. -/
theorem filterMap_tables (model : List (String × List (String × DType × String))) :
    (model.map
      (fun nf => (nf.1, Attr.aTable { table := nf.1, fields := nf.2 }))).filterMap
        attr_create =
      model.map (fun nf => Table.create_command { table := nf.1, fields := nf.2 }) := by
  induction model with
  | nil => rfl
  | cons nf rest ih => simp [attr_create, ih]

/-- C8 counterexample to the claim as stated: on a fresh store, a
one-table schema map named connection issues no CREATE statement (the
assignment self.connection = None at line 62 overwrites the Table entry
before create_database runs, and the constructor still returns normally);
likewise one named connect or create_database shadows the manager method
of that name in the instance __dict__, so __init__ raises an uncaught
TypeError and again no CREATE is issued. -/
theorem manager_init_counterexample :
    (manager_init "app.db" false [("connection", [("a", DType.int, "")])]).creates = [] ∧
    (manager_init "app.db" false [("connection", [("a", DType.int, "")])]).raised = false ∧
    (manager_init "app.db" false [("connect", [("a", DType.int, "")])]).creates = [] ∧
    (manager_init "app.db" false [("connect", [("a", DType.int, "")])]).raised = true ∧
    (manager_init "app.db" false
      [("create_database", [("a", DType.int, "")])]).creates = [] ∧
    (manager_init "app.db" false
      [("create_database", [("a", DType.int, "")])]).raised = true ∧
    [("connection", [("a", DType.int, "")])].length = 1 := by
  decide

/-- C8 as amended: at construction over a schema map whose table names are
distinct and avoid the manager attribute and method names db_file,
connection, cursor, connect and create_database, a missing store makes
the manager connect and issue exactly one CREATE statement per schema
table (in schema order) before the constructor returns normally, while an
existing store makes it issue none. -/
theorem manager_init_spec (file : String)
    (model : List (String × List (String × DType × String)))
    (hnodup : (model.map Prod.fst).Nodup)
    (hdb : "db_file" ∉ model.map Prod.fst)
    (hco : "connection" ∉ model.map Prod.fst)
    (hcu : "cursor" ∉ model.map Prod.fst)
    (hcn : "connect" ∉ model.map Prod.fst)
    (hcd : "create_database" ∉ model.map Prod.fst) :
    (manager_init file false model).connected = true ∧
    (manager_init file false model).raised = false ∧
    (manager_init file false model).creates =
      model.map (fun nf => Table.create_command { table := nf.1, fields := nf.2 }) ∧
    (manager_init file true model).creates = [] := by
  have hbranch : manager_init file false model =
      { creates :=
          (dict_set (dict_set (manager_dict file model) "connection" Attr.aConn)
            "cursor" Attr.aConn).filterMap attr_create
        connected := true
        raised := false } := by
    unfold manager_init
    rw [if_neg (by decide), if_neg hcn, if_neg hdb, if_neg hcd]
  refine ⟨by rw [hbranch], by rw [hbranch], ?_, by rfl⟩
  rw [hbranch]
  show (dict_set (dict_set (manager_dict file model) "connection" Attr.aConn)
      "cursor" Attr.aConn).filterMap attr_create =
    model.map (fun nf => Table.create_command { table := nf.1, fields := nf.2 })
  have hfold := fold_tables model [("db_file", Attr.aStr file)] hnodup ?_
  swap
  · intro nm hnm
    simp only [List.map_cons, List.map_nil, List.mem_singleton]
    intro he
    exact hdb (he ▸ hnm)
  have hkeys : ∀ nm : String, nm ∉ model.map Prod.fst →
      nm ≠ "db_file" →
      nm ∉ (([("db_file", Attr.aStr file)] : List (String × Attr)) ++
        model.map
          (fun nf => (nf.1, Attr.aTable { table := nf.1, fields := nf.2 }))).map
            Prod.fst := by
    intro nm hnm hne
    simp only [List.map_append, List.mem_append, List.map_cons, List.map_nil,
      List.mem_singleton, List.map_map]
    push_neg
    refine ⟨hne, ?_⟩
    intro hmem
    apply hnm
    have : (Prod.fst ∘ fun nf : String × List (String × DType × String) =>
        (nf.1, Attr.aTable { table := nf.1, fields := nf.2 })) = Prod.fst := rfl
    rwa [this] at hmem
  have hmd : manager_dict file model =
      ([("db_file", Attr.aStr file)] ++
        model.map (fun nf => (nf.1, Attr.aTable { table := nf.1, fields := nf.2 }))) ++
        [("connection", Attr.aNone), ("cursor", Attr.aNone)] := by
    unfold manager_dict
    rw [hfold, dict_set_fresh _ _ _ (hkeys "connection" hco (by decide)),
      dict_set_fresh _ _ _ ?_]
    · simp
    · intro hmem
      simp only [List.map_append, List.mem_append] at hmem
      rcases hmem with hmem | hmem
      · exact hkeys "cursor" hcu (by decide)
          (by simp only [List.map_append, List.mem_append]; exact hmem)
      · simp at hmem
  rw [hmd,
    show (([("db_file", Attr.aStr file)] ++
        model.map (fun nf => (nf.1, Attr.aTable { table := nf.1, fields := nf.2 }))) ++
        [("connection", Attr.aNone), ("cursor", Attr.aNone)]) =
      (([("db_file", Attr.aStr file)] ++
        model.map (fun nf => (nf.1, Attr.aTable { table := nf.1, fields := nf.2 }))) ++
        ("connection", Attr.aNone) :: [("cursor", Attr.aNone)]) from rfl,
    dict_set_mid _ _ _ _ _ (hkeys "connection" hco (by decide))]
  rw [show (([("db_file", Attr.aStr file)] ++
        model.map (fun nf => (nf.1, Attr.aTable { table := nf.1, fields := nf.2 }))) ++
        ("connection", Attr.aConn) :: [("cursor", Attr.aNone)]) =
      ((([("db_file", Attr.aStr file)] ++
        model.map (fun nf => (nf.1, Attr.aTable { table := nf.1, fields := nf.2 }))) ++
        [("connection", Attr.aConn)]) ++ ("cursor", Attr.aNone) :: []) by simp,
    dict_set_mid _ _ _ _ _ ?_]
  · simp only [List.filterMap_append, filterMap_tables]
    simp [attr_create]
  · intro hmem
    simp only [List.map_append, List.mem_append] at hmem
    rcases hmem with hmem | hmem
    · exact hkeys "cursor" hcu (by decide)
        (by simp only [List.map_append, List.mem_append]; exact hmem)
    · simp at hmem

/-- Witness for the amended C8 at a concrete schema map. -/
theorem manager_init_spec_witness :
    ((([("users", [("a", DType.int, "")])].map
        (Prod.fst (β := List (String × DType × String)))).Nodup ∧
      "db_file" ∉ [("users", [("a", DType.int, "")])].map Prod.fst ∧
      "connection" ∉ [("users", [("a", DType.int, "")])].map Prod.fst ∧
      "cursor" ∉ [("users", [("a", DType.int, "")])].map Prod.fst ∧
      "connect" ∉ [("users", [("a", DType.int, "")])].map Prod.fst ∧
      "create_database" ∉ [("users", [("a", DType.int, "")])].map Prod.fst) ∧
    ((manager_init "app.db" false [("users", [("a", DType.int, "")])]).connected = true ∧
    (manager_init "app.db" false [("users", [("a", DType.int, "")])]).raised = false ∧
    (manager_init "app.db" false [("users", [("a", DType.int, "")])]).creates =
      [("users", [("a", DType.int, "")])].map
        (fun nf => Table.create_command { table := nf.1, fields := nf.2 }) ∧
    (manager_init "app.db" true [("users", [("a", DType.int, "")])]).creates = [])) :=
  ⟨⟨by decide, by decide, by decide, by decide, by decide, by decide⟩,
    manager_init_spec "app.db" [("users", [("a", DType.int, "")])]
      (by decide) (by decide) (by decide) (by decide) (by decide) (by decide)⟩
